import Mathlib

/-!
Verification of the AI-Text-Generator orchestration core.

We embed the Python modules `config.py`, `text_generator.py` and
`sentiment_analyzer.py` shallowly in Lean.  Python strings are modelled as
`List Char` (a Python `str` is a sequence of code points), Python `None`
as `Option`, and a model capability that may raise as a function into
`Except (List Char) α` carrying the exception message.  The `generate`
and `analyze` wrappers are additionally instrumented to return the list
of calls they make to the underlying capability, so that claims about
"the capability is not invoked" / "the length passed downstream" are
directly statable.
-/

namespace AITextGen

/-! ### config.py -/

/-- `DEFAULT_MAX_LENGTH = 150` from config.py. -/
def DEFAULT_MAX_LENGTH : Int := 150

/-- `MIN_LENGTH = 50` from config.py. -/
def MIN_LENGTH : Int := 50

/-- `MAX_LENGTH = 500` from config.py. -/
def MAX_LENGTH : Int := 500

/-- One entry of `PROMPT_TEMPLATES` from config.py: a prompt prelude
string (`"prefix"` key) and a list of style words. -/
structure Template where
  pre : List Char
  style_words : List (List Char)
  deriving DecidableEq

/-- The `"positive"` entry of `PROMPT_TEMPLATES`. -/
def positiveTemplate : Template :=
  { pre := "Write an uplifting and positive text about: ".toList
    style_words := ["wonderful".toList, "amazing".toList, "delightful".toList,
                    "excellent".toList, "fantastic".toList] }

/-- The `"negative"` entry of `PROMPT_TEMPLATES`. -/
def negativeTemplate : Template :=
  { pre := "Write a critical and negative text about: ".toList
    style_words := ["disappointing".toList, "unfortunate".toList, "problematic".toList,
                    "concerning".toList, "troubling".toList] }

/-- The `"neutral"` entry of `PROMPT_TEMPLATES`. -/
def neutralTemplate : Template :=
  { pre := "Write an objective and balanced text about: ".toList
    style_words := ["regarding".toList, "concerning".toList, "about".toList,
                    "related to".toList, "pertaining to".toList] }

/-- `PROMPT_TEMPLATES` from config.py, as a keyed lookup
(`dict.get` returns `None` on a missing key). -/
def PROMPT_TEMPLATES (s : List Char) : Option Template :=
  if s = "positive".toList then some positiveTemplate
  else if s = "negative".toList then some negativeTemplate
  else if s = "neutral".toList then some neutralTemplate
  else none

/-! ### Python string primitives -/

/-- Python `str.lower()` (ASCII case mapping, as in `Char.toLower`). -/
def pyLower (s : List Char) : List Char := s.map Char.toLower

/-- Python `str.upper()` (ASCII case mapping, as in `Char.toUpper`). -/
def pyUpper (s : List Char) : List Char := s.map Char.toUpper

/-- Python `str.strip()`: remove leading and trailing whitespace. -/
def pyStrip (s : List Char) : List Char :=
  ((s.dropWhile Char.isWhitespace).reverse.dropWhile Char.isWhitespace).reverse

/-- The Python truth test `not text or text.strip() == ""` used as the
blank-input guard in both `generate` and `analyze` (an empty string is
falsy, so the two disjuncts together mean: strips to empty). -/
def isBlank (s : List Char) : Bool := pyStrip s = []

/-- Python `str.replace("  ", " ")`: a single left-to-right pass that
replaces non-overlapping occurrences of two spaces by one space and
resumes scanning after the replacement. -/
def replaceDoubleSpace : List Char → List Char
  | ' ' :: ' ' :: rest => ' ' :: replaceDoubleSpace rest
  | c :: rest => c :: replaceDoubleSpace rest
  | [] => []

/-! ### text_generator.py -/

/-- `TextGenerator._create_sentiment_prompt(prompt, sentiment)`.
The call `random.choice(template['style_words'])` is modelled by an
explicit draw index `k`: the chosen element is entry `k % len` of the
list, which ranges over exactly the elements `random.choice` can pick
(the lists in config.py are non-empty). -/
def createSentimentPrompt (prompt sentiment : List Char) (k : Nat) : List Char :=
  let s := pyLower sentiment
  let template := (PROMPT_TEMPLATES s).getD neutralTemplate
  let enhanced := template.pre ++ prompt ++ ". ".toList
  let style_word := template.style_words.getD (k % template.style_words.length) []
  enhanced ++ "This is ".toList ++ style_word ++ ". ".toList

/-- `TextGenerator._clean_output(generated_text, prompt_prefix)`:
strip the echoed prompt prelude when present, trim whitespace, collapse
double spaces in one pass, and append `'.'` when the text is non-empty
and does not already end in `'.'`, `'!'` or `'?'`. -/
def cleanOutput (generated_text prompt_pre : List Char) : List Char :=
  let cleaned :=
    if prompt_pre.isPrefixOf generated_text then
      pyStrip (generated_text.drop prompt_pre.length)
    else
      pyStrip generated_text
  let cleaned := replaceDoubleSpace cleaned
  if h : cleaned ≠ [] then
    if cleaned.getLast h = '.' ∨ cleaned.getLast h = '!' ∨ cleaned.getLast h = '?' then
      cleaned
    else
      cleaned ++ ['.']
  else
    cleaned

/-- The two length-resolution lines of `TextGenerator.generate`:
`length = config.DEFAULT_MAX_LENGTH` when the argument is `None`,
then `length = max(config.MIN_LENGTH, min(length, config.MAX_LENGTH))`. -/
def effectiveLength (lengthArg : Option Int) : Int :=
  max MIN_LENGTH (min (lengthArg.getD DEFAULT_MAX_LENGTH) MAX_LENGTH)

/-- `TextGenerator.generate(prompt, sentiment, length)`, instrumented.
`gen` is the text-generation capability: it receives the enhanced prompt
and the max length, and either returns the raw generated text or raises
(modelled by `Except.error` carrying `str(e)`).  The second component of
the result records every `(prompt, max_length)` call made to `gen`. -/
def generateRun (gen : List Char → Int → Except (List Char) (List Char))
    (prompt sentiment : List Char) (lengthArg : Option Int) (k : Nat) :
    List Char × List (List Char × Int) :=
  if isBlank prompt then
    ("Error: Empty prompt provided.".toList, [])
  else
    let length := effectiveLength lengthArg
    let enhanced := createSentimentPrompt prompt sentiment k
    match gen enhanced length with
    | Except.ok generated_text => (cleanOutput generated_text enhanced, [(enhanced, length)])
    | Except.error e => ("Error generating text: ".toList ++ e, [(enhanced, length)])

/-- `TextGenerator.generate`: the returned string alone. -/
def generate (gen : List Char → Int → Except (List Char) (List Char))
    (prompt sentiment : List Char) (lengthArg : Option Int) (k : Nat) : List Char :=
  (generateRun gen prompt sentiment lengthArg k).1

/-! ### sentiment_analyzer.py -/

/-- The dictionary returned by `SentimentAnalyzer.analyze`: keys
`"label"`, `"confidence"` and, in the two error-shaped returns, the
extra key `"error"` (`none` models the absence of that key).  The raw
model score (a Python float) is modelled as a rational. -/
structure SentimentResult where
  label : List Char
  confidence : Rat
  error : Option (List Char)
  deriving DecidableEq

/-- `SentimentAnalyzer.analyze(text)`, instrumented.  `classifier` is
the sentiment-classification capability: on success it returns the pair
`(result['label'], result['score'])`, and a raised exception is
`Except.error` carrying `str(e)`.  The second component records every
text passed to the capability. -/
def analyzeRun (classifier : List Char → Except (List Char) (List Char × Rat))
    (text : List Char) : SentimentResult × List (List Char) :=
  if isBlank text then
    ({ label := "neutral".toList, confidence := 0, error := some "Empty input".toList }, [])
  else
    match classifier text with
    | Except.ok result =>
        let label := pyUpper result.1
        let confidence := result.2
        let sentiment :=
          if label = "POSITIVE".toList then "positive".toList
          else if label = "NEGATIVE".toList then "negative".toList
          else "neutral".toList
        ({ label := sentiment, confidence := confidence, error := none }, [text])
    | Except.error e =>
        ({ label := "neutral".toList, confidence := 0, error := some e }, [text])

/-- `SentimentAnalyzer.analyze`: the returned dictionary alone. -/
def analyze (classifier : List Char → Except (List Char) (List Char × Rat))
    (text : List Char) : SentimentResult :=
  (analyzeRun classifier text).1

/-! ### Stub capabilities used to instantiate universally quantified
theorems at concrete inputs. -/

/-- A generation capability that always succeeds, echoing the prompt
followed by fixed text (as a causal generator typically does). -/
def stubGen : List Char → Int → Except (List Char) (List Char) :=
  fun p _ => Except.ok (p ++ "the sun shines".toList)

/-- A generation capability that always raises with message `"boom"`. -/
def stubGenRaise : List Char → Int → Except (List Char) (List Char) :=
  fun _ _ => Except.error "boom".toList

/-- A classification capability that always succeeds with label
`"POSITIVE"` and score `9/10`. -/
def stubClassifier : List Char → Except (List Char) (List Char × Rat) :=
  fun _ => Except.ok ("POSITIVE".toList, 9/10)

/-- A classification capability returning an out-of-range score `3/2`. -/
def stubClassifierBig : List Char → Except (List Char) (List Char × Rat) :=
  fun _ => Except.ok ("POSITIVE".toList, 3/2)

/-- A classification capability that always raises with message
`"model unavailable"`. -/
def stubClassifierRaise : List Char → Except (List Char) (List Char × Rat) :=
  fun _ => Except.error "model unavailable".toList

/-! ### Helper lemmas -/

/-- An element read with `getD` at a reduced index is a member of the
list (the model of `random.choice` on a non-empty list). -/
theorem getD_mod_mem {α : Type} (l : List α) (d : α) (k : Nat) (h : l ≠ []) :
    l.getD (k % l.length) d ∈ l := by
  have hpos : 0 < l.length := List.length_pos.mpr h
  have hlt : k % l.length < l.length := Nat.mod_lt _ hpos
  rw [List.getD_eq_getElem _ _ hlt]
  exact List.getElem_mem hlt

/-- When the sentiment is already lowercase and has a template, the
composed prompt is exactly the documented concatenation. -/
theorem compose_with_template (p s : List Char) (k : Nat) (tpl : Template)
    (hL : pyLower s = s) (hT : PROMPT_TEMPLATES s = some tpl) :
    createSentimentPrompt p s k =
      tpl.pre ++ p ++ ". ".toList ++ "This is ".toList ++
        tpl.style_words.getD (k % tpl.style_words.length) [] ++ ". ".toList := by
  simp only [createSentimentPrompt, hL, hT, Option.getD_some]

/-- Shape of the composed prompt for any sentiment with a template:
prelude, then the user prompt, then the style sentence; hence the output
starts with the prelude and contains the user prompt. -/
theorem compose_shape_of_template (p s : List Char) (k : Nat) (tpl : Template)
    (hL : pyLower s = s) (hT : PROMPT_TEMPLATES s = some tpl)
    (hne : tpl.style_words ≠ []) :
    ∃ w ∈ tpl.style_words,
      createSentimentPrompt p s k =
        tpl.pre ++ p ++ ". ".toList ++ "This is ".toList ++ w ++ ". ".toList ∧
      tpl.pre <+: createSentimentPrompt p s k ∧
      ∃ a b, createSentimentPrompt p s k = a ++ p ++ b := by
  have heq := compose_with_template p s k tpl hL hT
  refine ⟨tpl.style_words.getD (k % tpl.style_words.length) [],
    getD_mod_mem tpl.style_words [] k hne, heq, ?_, ?_⟩
  · rw [heq]
    simp only [List.append_assoc]
    exact List.prefix_append _ _
  · exact ⟨tpl.pre, ". ".toList ++ "This is ".toList ++
      tpl.style_words.getD (k % tpl.style_words.length) [] ++ ". ".toList,
      by rw [heq]; simp only [List.append_assoc]⟩

/-! ### Claims -/

/-- C1: for every call to `generate` with a non-blank prompt, the
capability is invoked exactly once, with a max length equal to
`effectiveLength`, which is clamped into `[MIN_LENGTH, MAX_LENGTH]` for
every integer argument (below the minimum, above the maximum, zero,
negative); an absent length first defaults to `DEFAULT_MAX_LENGTH` and
is then clamped. -/
theorem generate_length_clamped
    (gen : List Char → Int → Except (List Char) (List Char))
    (prompt sentiment : List Char) (lengthArg : Option Int) (k : Nat)
    (h : isBlank prompt = false) :
    (generateRun gen prompt sentiment lengthArg k).2 =
      [(createSentimentPrompt prompt sentiment k, effectiveLength lengthArg)] ∧
    MIN_LENGTH ≤ effectiveLength lengthArg ∧
    effectiveLength lengthArg ≤ MAX_LENGTH ∧
    effectiveLength none = max MIN_LENGTH (min DEFAULT_MAX_LENGTH MAX_LENGTH) := by
  refine ⟨?_, le_max_left _ _,
    max_le (by norm_num [MIN_LENGTH, MAX_LENGTH]) (le_trans (min_le_right _ _) le_rfl), rfl⟩
  simp only [generateRun, h, Bool.false_eq_true, if_false]
  cases gen (createSentimentPrompt prompt sentiment k) (effectiveLength lengthArg) <;> rfl

/-- Witness for C1 at a negative length argument. -/
theorem generate_length_clamped_witness :
    isBlank "sunny days".toList = false ∧
    ((generateRun stubGen "sunny days".toList "positive".toList (some (-7)) 0).2 =
      [(createSentimentPrompt "sunny days".toList "positive".toList 0,
        effectiveLength (some (-7)))] ∧
     MIN_LENGTH ≤ effectiveLength (some (-7)) ∧
     effectiveLength (some (-7)) ≤ MAX_LENGTH ∧
     effectiveLength none = max MIN_LENGTH (min DEFAULT_MAX_LENGTH MAX_LENGTH)) :=
  ⟨by decide,
   generate_length_clamped stubGen "sunny days".toList "positive".toList (some (-7)) 0
     (by decide)⟩

/-- C5: `generate` on a blank (empty or whitespace-only) prompt returns
the sentinel error string immediately, for every sentiment and length,
and makes no call to the generation capability. -/
theorem generate_blank_prompt_sentinel
    (gen : List Char → Int → Except (List Char) (List Char))
    (prompt sentiment : List Char) (lengthArg : Option Int) (k : Nat)
    (h : isBlank prompt = true) :
    generateRun gen prompt sentiment lengthArg k =
      ("Error: Empty prompt provided.".toList, []) := by
  simp only [generateRun, h, if_true]

/-- Witness for C5 at the empty prompt and at a whitespace-only prompt. -/
theorem generate_blank_prompt_sentinel_witness :
    (isBlank "".toList = true ∧
      generateRun stubGen "".toList "positive".toList (some 100) 0 =
        ("Error: Empty prompt provided.".toList, [])) ∧
    (isBlank "   ".toList = true ∧
      generateRun stubGen "   ".toList "negative".toList none 3 =
        ("Error: Empty prompt provided.".toList, [])) :=
  ⟨⟨by decide, generate_blank_prompt_sentinel stubGen "".toList "positive".toList
      (some 100) 0 (by decide)⟩,
   ⟨by decide, generate_blank_prompt_sentinel stubGen "   ".toList "negative".toList
      none 3 (by decide)⟩⟩

/-- C2 counterexample: on the empty input, `analyze` does not return a
dictionary with only the `label` and `confidence` keys — the returned
dictionary carries the extra key `"error": "Empty input"`. -/
theorem analyze_blank_has_error_key :
    (analyzeRun stubClassifier "".toList).1 ≠
      { label := "neutral".toList, confidence := 0, error := none } := by
  decide

/-- C2 amended: on every blank (empty or whitespace-only) input,
`analyze` returns label `neutral`, confidence `0.0` and the extra field
`error = "Empty input"`, and the classification capability is not
invoked. -/
theorem analyze_blank_returns_neutral
    (classifier : List Char → Except (List Char) (List Char × Rat))
    (text : List Char) (h : isBlank text = true) :
    analyzeRun classifier text =
      ({ label := "neutral".toList, confidence := 0,
         error := some "Empty input".toList }, []) := by
  simp only [analyzeRun, h, if_true]

/-- Witness for C2 at the empty input and at a whitespace-only input. -/
theorem analyze_blank_returns_neutral_witness :
    (isBlank "".toList = true ∧
      analyzeRun stubClassifier "".toList =
        ({ label := "neutral".toList, confidence := 0,
           error := some "Empty input".toList }, [])) ∧
    (isBlank "   ".toList = true ∧
      analyzeRun stubClassifier "   ".toList =
        ({ label := "neutral".toList, confidence := 0,
           error := some "Empty input".toList }, [])) :=
  ⟨⟨by decide, analyze_blank_returns_neutral stubClassifier "".toList (by decide)⟩,
   ⟨by decide, analyze_blank_returns_neutral stubClassifier "   ".toList (by decide)⟩⟩

/-- C3 counterexample: `"POSITIVE"` is outside the closed set
`{positive, negative, neutral}`, yet composing with it does not behave
like composing with `"neutral"` (the lookup lowercases first, so the
positive template is used). -/
theorem compose_uppercase_not_neutral :
    ("POSITIVE".toList ≠ "positive".toList ∧
     "POSITIVE".toList ≠ "negative".toList ∧
     "POSITIVE".toList ≠ "neutral".toList) ∧
    createSentimentPrompt "x".toList "POSITIVE".toList 0 ≠
      createSentimentPrompt "x".toList "neutral".toList 0 := by
  decide

/-- C3 amended: for every sentiment whose lowercased form is outside
`{positive, negative, neutral}`, composing behaves identically to
composing with `"neutral"` (same prelude and style-word list, for every
random draw). -/
theorem compose_unknown_falls_back_to_neutral
    (p s : List Char) (k : Nat)
    (h1 : pyLower s ≠ "positive".toList)
    (h2 : pyLower s ≠ "negative".toList)
    (h3 : pyLower s ≠ "neutral".toList) :
    createSentimentPrompt p s k = createSentimentPrompt p "neutral".toList k := by
  have hs : PROMPT_TEMPLATES (pyLower s) = none := by
    simp only [PROMPT_TEMPLATES, if_neg h1, if_neg h2, if_neg h3]
  have hn : pyLower "neutral".toList = "neutral".toList := by decide
  have hnT : PROMPT_TEMPLATES "neutral".toList = some neutralTemplate := by decide
  simp only [createSentimentPrompt, hs, hn, hnT, Option.getD_none, Option.getD_some]

/-- Witness for the amended C3 at the unknown sentiment `"angry"`. -/
theorem compose_unknown_falls_back_to_neutral_witness :
    (pyLower "angry".toList ≠ "positive".toList ∧
     pyLower "angry".toList ≠ "negative".toList ∧
     pyLower "angry".toList ≠ "neutral".toList) ∧
    createSentimentPrompt "x".toList "angry".toList 4 =
      createSentimentPrompt "x".toList "neutral".toList 4 :=
  ⟨⟨by decide, by decide, by decide⟩,
   compose_unknown_falls_back_to_neutral "x".toList "angry".toList 4
     (by decide) (by decide) (by decide)⟩

/-- C10: the sentiment-to-template lookup is case-insensitive — any
sentiment that lowercases to `"positive"` composes exactly as
`"positive"` does under the same random draw, and the template used is
the positive one, not the neutral fallback. -/
theorem compose_case_insensitive
    (p s : List Char) (k : Nat) (h : pyLower s = "positive".toList) :
    createSentimentPrompt p s k = createSentimentPrompt p "positive".toList k ∧
    (PROMPT_TEMPLATES (pyLower s)).getD neutralTemplate = positiveTemplate := by
  have hp : pyLower "positive".toList = "positive".toList := by decide
  constructor
  · simp only [createSentimentPrompt, h, hp]
  · rw [h]; decide

/-- Witness for C10 at the all-caps label `"POSITIVE"`. -/
theorem compose_case_insensitive_witness :
    pyLower "POSITIVE".toList = "positive".toList ∧
    (createSentimentPrompt "x".toList "POSITIVE".toList 1 =
       createSentimentPrompt "x".toList "positive".toList 1 ∧
     (PROMPT_TEMPLATES (pyLower "POSITIVE".toList)).getD neutralTemplate =
       positiveTemplate) :=
  ⟨by decide, compose_case_insensitive "x".toList "POSITIVE".toList 1 (by decide)⟩

/-- C4: neither wrapper propagates a capability failure — when the
classification capability raises, `analyze` returns the neutral result
with the exception message in the `error` field; when the generation
capability raises, `generate` returns the formatted error string
embedding the message.  Both complete normally with ordinary values. -/
theorem failsoft_no_propagation :
    (∀ (classifier : List Char → Except (List Char) (List Char × Rat))
       (text e : List Char),
       isBlank text = false → classifier text = Except.error e →
       (analyzeRun classifier text).1 =
         { label := "neutral".toList, confidence := 0, error := some e }) ∧
    (∀ (gen : List Char → Int → Except (List Char) (List Char))
       (prompt sentiment e : List Char) (lengthArg : Option Int) (k : Nat),
       isBlank prompt = false →
       gen (createSentimentPrompt prompt sentiment k) (effectiveLength lengthArg) =
         Except.error e →
       generate gen prompt sentiment lengthArg k =
         "Error generating text: ".toList ++ e) := by
  constructor
  · intro classifier text e hb hc
    simp only [analyzeRun, hb, Bool.false_eq_true, if_false, hc]
  · intro gen prompt sentiment e lengthArg k hb hg
    simp only [generate, generateRun, hb, Bool.false_eq_true, if_false, hg]

/-- Witness for C4 with raising stub capabilities. -/
theorem failsoft_no_propagation_witness :
    (isBlank "good news".toList = false ∧
     stubClassifierRaise "good news".toList =
       Except.error "model unavailable".toList ∧
     (analyzeRun stubClassifierRaise "good news".toList).1 =
       { label := "neutral".toList, confidence := 0,
         error := some "model unavailable".toList }) ∧
    (stubGenRaise (createSentimentPrompt "good news".toList "positive".toList 0)
       (effectiveLength (some 100)) = Except.error "boom".toList ∧
     generate stubGenRaise "good news".toList "positive".toList (some 100) 0 =
       "Error generating text: ".toList ++ "boom".toList) :=
  ⟨⟨by decide, rfl,
    failsoft_no_propagation.1 stubClassifierRaise "good news".toList
      "model unavailable".toList (by decide) rfl⟩,
   ⟨rfl,
    failsoft_no_propagation.2 stubGenRaise "good news".toList "positive".toList
      "boom".toList (some 100) 0 (by decide) rfl⟩⟩

/-- On a non-blank input whose classification succeeds, the returned
confidence is the raw score field of the capability's result. -/
theorem analyze_ok_confidence
    (classifier : List Char → Except (List Char) (List Char × Rat))
    (text lbl : List Char) (score : Rat)
    (hb : isBlank text = false) (hc : classifier text = Except.ok (lbl, score)) :
    (analyzeRun classifier text).1.confidence = score := by
  simp only [analyzeRun, hb, Bool.false_eq_true, if_false, hc]

/-- C9 counterexample: on a non-blank input, when the capability reports
a raw score of `3/2`, the returned confidence is `3/2`, outside `[0,1]`
— no defensive clamping happens. -/
theorem analyze_confidence_not_clamped :
    isBlank "good news".toList = false ∧
    (analyzeRun stubClassifierBig "good news".toList).1.confidence = 3/2 ∧
    ¬ (analyzeRun stubClassifierBig "good news".toList).1.confidence ≤ 1 := by
  have h := analyze_ok_confidence stubClassifierBig "good news".toList
    "POSITIVE".toList (3/2) (by decide) rfl
  refine ⟨by decide, h, ?_⟩
  rw [h]
  norm_num

/-- C9 amended: the confidence returned by `analyze` on a non-blank
input is the capability's raw score passed through unchanged; it lies
in `[0,1]` exactly when the raw score does. -/
theorem analyze_confidence_is_raw_score
    (classifier : List Char → Except (List Char) (List Char × Rat))
    (text lbl : List Char) (score : Rat)
    (hb : isBlank text = false) (hc : classifier text = Except.ok (lbl, score)) :
    (analyzeRun classifier text).1.confidence = score ∧
    ((0 ≤ (analyzeRun classifier text).1.confidence ∧
      (analyzeRun classifier text).1.confidence ≤ 1) ↔ (0 ≤ score ∧ score ≤ 1)) := by
  have h := analyze_ok_confidence classifier text lbl score hb hc
  exact ⟨h, by rw [h]⟩

/-- Witness for the amended C9 at the out-of-range score `3/2`. -/
theorem analyze_confidence_is_raw_score_witness :
    isBlank "good news".toList = false ∧
    ((analyzeRun stubClassifierBig "good news".toList).1.confidence = 3/2 ∧
     ((0 ≤ (analyzeRun stubClassifierBig "good news".toList).1.confidence ∧
       (analyzeRun stubClassifierBig "good news".toList).1.confidence ≤ 1) ↔
      (0 ≤ (3/2 : Rat) ∧ (3/2 : Rat) ≤ 1))) :=
  ⟨by decide,
   analyze_confidence_is_raw_score stubClassifierBig "good news".toList
     "POSITIVE".toList (3/2) (by decide) rfl⟩

/-- C6: for every prompt and every sentiment in the closed set, the
composed prompt equals the configured prelude, then the user prompt,
then `". "`, then `"This is "`, then a style word from that sentiment's
configured list, then `". "`; in particular it starts with the
configured prelude and contains the user prompt as a substring. -/
theorem compose_known_sentiment_shape
    (p s : List Char) (k : Nat) (tpl : Template)
    (h : (s = "positive".toList ∧ tpl = positiveTemplate) ∨
         (s = "negative".toList ∧ tpl = negativeTemplate) ∨
         (s = "neutral".toList ∧ tpl = neutralTemplate)) :
    ∃ w ∈ tpl.style_words,
      createSentimentPrompt p s k =
        tpl.pre ++ p ++ ". ".toList ++ "This is ".toList ++ w ++ ". ".toList ∧
      tpl.pre <+: createSentimentPrompt p s k ∧
      ∃ a b, createSentimentPrompt p s k = a ++ p ++ b := by
  rcases h with ⟨h1, h2⟩ | ⟨h1, h2⟩ | ⟨h1, h2⟩ <;> subst h1 <;> subst h2 <;>
    exact compose_shape_of_template p _ k _ (by decide) (by decide) (by decide)

/-- Witness for C6 at the positive sentiment. -/
theorem compose_known_sentiment_shape_witness :
    (("positive".toList = "positive".toList ∧ positiveTemplate = positiveTemplate) ∨
     ("positive".toList = "negative".toList ∧ positiveTemplate = negativeTemplate) ∨
     ("positive".toList = "neutral".toList ∧ positiveTemplate = neutralTemplate)) ∧
    ∃ w ∈ positiveTemplate.style_words,
      createSentimentPrompt "sunny days".toList "positive".toList 2 =
        positiveTemplate.pre ++ "sunny days".toList ++ ". ".toList ++
          "This is ".toList ++ w ++ ". ".toList ∧
      positiveTemplate.pre <+:
        createSentimentPrompt "sunny days".toList "positive".toList 2 ∧
      ∃ a b, createSentimentPrompt "sunny days".toList "positive".toList 2 =
        a ++ "sunny days".toList ++ b :=
  ⟨Or.inl ⟨rfl, rfl⟩,
   compose_known_sentiment_shape "sunny days".toList "positive".toList 2
     positiveTemplate (Or.inl ⟨rfl, rfl⟩)⟩

/-- C7: for every prompt prelude `pp`, cleaning `pp ++ "hello world"`
against `pp` strips the echoed prelude and appends a period; and a text
already ending in `'!'` is returned unchanged, with no extra
punctuation. -/
theorem clean_strips_echo_and_punctuates (pp : List Char) :
    cleanOutput (pp ++ "hello world".toList) pp = "hello world.".toList ∧
    cleanOutput "Already ends with punctuation!".toList [] =
      "Already ends with punctuation!".toList := by
  constructor
  · have h1 : pp.isPrefixOf (pp ++ "hello world".toList) = true :=
      List.isPrefixOf_iff_prefix.mpr (List.prefix_append pp _)
    have h2 : (pp ++ "hello world".toList).drop pp.length = "hello world".toList :=
      List.drop_left _ _
    simp only [cleanOutput, h1, if_true, h2]
    rfl
  · decide

/-- Witness for C7 at the concrete prelude `"PROMPT: "`. -/
theorem clean_strips_echo_and_punctuates_witness :
    cleanOutput ("PROMPT: ".toList ++ "hello world".toList) "PROMPT: ".toList =
      "hello world.".toList ∧
    cleanOutput "Already ends with punctuation!".toList [] =
      "Already ends with punctuation!".toList :=
  clean_strips_echo_and_punctuates "PROMPT: ".toList

/-- C8 counterexample: `clean("a  b", "")` does not return `"a b"` — the
final character `'b'` is not punctuation, so a period is appended and
the result is `"a b."`. -/
theorem clean_double_space_not_bare :
    cleanOutput "a  b".toList [] ≠ "a b".toList := by
  decide

/-- C8 amended: `clean("a  b", "")` collapses the double space and
appends a period, returning `"a b."`; and the collapse is a single
left-to-right pass, so the three-space input `"a   b"` still leaves a
double space in the result. -/
theorem clean_double_space_single_pass :
    cleanOutput "a  b".toList [] = "a b.".toList ∧
    ∃ a b, cleanOutput "a   b".toList [] = a ++ "  ".toList ++ b :=
  ⟨by decide, "a".toList, "b.".toList, by decide⟩

end AITextGen
